import Mathlib

/-!
Verification development for `data_producer.py`: a shallow embedding of the
signal-generation and persistence pipeline (schema bootstrap, pooled write
path, scheduler loop, configuration loading), together with theorems that
settle the specification claims against it.

Modelling conventions:
* Python exceptions are values of `PyOutcome`; an uncaught exception that
  propagates out of a function is `PyOutcome.exn name`.
* `setup_logging` (data_producer.py lines 25-42) installs
  `RaiseOnErrorHandler` (lines 12-22) on the root logger, so every
  `logging.error` call raises `RuntimeError` after the record is written.
  Each embedded function takes a `raiseOnError : Bool` flag recording
  whether that handler is installed; `__main__` runs with it installed.
* Database I/O failures are injected through explicit failure oracles
  (`Option FailPoint` / `Bool` arguments): `none`/`false` means the I/O
  succeeds, `some p` means the operation at point `p` raises.
* Randomness is modelled by threading raw natural-number draws through the
  CPython mappings (`random.random` returns a multiple of 2⁻⁵³ in [0,1)).
-/

namespace DataProducer

/-- Python-level outcome of a call: normal return, or an uncaught exception
propagating to the caller, identified by its class name. -/
inductive PyOutcome where
  | ok : PyOutcome
  | exn (name : String) : PyOutcome
deriving DecidableEq

/-- Point at which the body of `insert_data` / `create_table` fails:
`connection_pool.getconn()` raises, `cursor.execute` raises, or
`conn.commit()` raises. -/
inductive FailPoint where
  | getconn
  | execute
  | commit
deriving DecidableEq

/-- A committed row of the target table (columns bound by the INSERT in
`insert_data`, data_producer.py lines 165-169; the `id` column is
auto-generated and omitted).  `timestamp` is the write-time clock value
passed for `datetime.now()`. -/
structure Row where
  signal_type : String
  value : ℚ
  timestamp : ℕ
deriving DecidableEq

/-- Observable interactions of one `insert_data` call with the connection
pool.  `putconnClosed` records that `connection_pool.putconn(conn)` was
called on a connection that `conn.close()` had already closed;
`putconnOpen` records `putconn` on a still-open connection. -/
inductive PoolEvent where
  | acquire
  | putconnOpen
  | putconnClosed
deriving DecidableEq

/-- Result of one `insert_data` call: Python-level outcome, the pool
interactions that happened, the committed rows of the table afterwards,
and whether an ERROR-level log record was emitted. -/
structure InsertResult where
  result : PyOutcome
  poolEvents : List PoolEvent
  rows : List Row
  errorLogged : Bool
deriving DecidableEq

/-- Embedding of `insert_data` (data_producer.py lines 159-177).
The body is `try: conn = getconn(); execute; commit; cursor.close();
conn.close()  except Exception: logging.error(...)  finally: if conn:
putconn(conn)`.  Consequences traced from the source:
* `fail = getconn`: no connection is acquired; the `except` block logs the
  error (raising `RuntimeError` first if the handler is installed), then
  the `finally` block evaluates `if conn:` with `conn` unbound, so an
  `UnboundLocalError` propagates in either case.
* `fail = execute`/`commit`: the acquired connection is still open when the
  `finally` block releases it; the error is logged, which raises
  `RuntimeError` iff `raiseOnError`; no row is committed.
* success: one row is committed, then `conn.close()` runs, so the
  `finally` block hands a closed connection to `putconn`. -/
def insert_data (raiseOnError : Bool) (fail : Option FailPoint) (rows : List Row)
    (now : ℕ) (signal_type : String) (value : ℚ) : InsertResult :=
  match fail with
  | some FailPoint.getconn =>
      ⟨PyOutcome.exn "UnboundLocalError", [], rows, true⟩
  | some FailPoint.execute =>
      ⟨if raiseOnError then PyOutcome.exn "RuntimeError" else PyOutcome.ok,
       [PoolEvent.acquire, PoolEvent.putconnOpen], rows, true⟩
  | some FailPoint.commit =>
      ⟨if raiseOnError then PyOutcome.exn "RuntimeError" else PyOutcome.ok,
       [PoolEvent.acquire, PoolEvent.putconnOpen], rows, true⟩
  | none =>
      ⟨PyOutcome.ok, [PoolEvent.acquire, PoolEvent.putconnClosed],
       rows ++ [⟨signal_type, value, now⟩], false⟩

/-- Schema objects visible to the bootstrap functions: the server's
databases and the target database's tables. -/
structure SchemaState where
  databases : List String
  tables : List String
deriving DecidableEq

/-- Result of a bootstrap step: outcome, schema state afterwards, and
whether an ERROR-level record was logged. -/
structure BootResult where
  result : PyOutcome
  st : SchemaState
  errorLogged : Bool
deriving DecidableEq

/-- Embedding of `create_database` (data_producer.py lines 102-127):
connect to the administrative `postgres` database, check
`pg_database` for the target name, `CREATE DATABASE` only when absent.
Any exception is caught and logged by `except Exception`; there is no
`finally`, so with the handler absent the function returns normally, and
with the handler installed `logging.error` raises `RuntimeError`.
`ioFail = true` injects a failure (connect or query raising). -/
def create_database (raiseOnError : Bool) (ioFail : Bool) (dbname : String)
    (st : SchemaState) : BootResult :=
  if ioFail then
    ⟨if raiseOnError then PyOutcome.exn "RuntimeError" else PyOutcome.ok, st, true⟩
  else if dbname ∈ st.databases then
    ⟨PyOutcome.ok, st, false⟩
  else
    ⟨PyOutcome.ok, { st with databases := st.databases ++ [dbname] }, false⟩

/-- Embedding of `create_table` (data_producer.py lines 130-156): acquire a
pooled connection and run `CREATE TABLE IF NOT EXISTS`.  Failures are
caught and logged like in `insert_data`, and the `finally` block has the
same unbound-`conn` pitfall when `getconn` itself raised. -/
def create_table (raiseOnError : Bool) (fail : Option FailPoint)
    (table_name : String) (st : SchemaState) : BootResult :=
  match fail with
  | some FailPoint.getconn =>
      ⟨PyOutcome.exn "UnboundLocalError", st, true⟩
  | some _ =>
      ⟨if raiseOnError then PyOutcome.exn "RuntimeError" else PyOutcome.ok, st, true⟩
  | none =>
      if table_name ∈ st.tables then
        ⟨PyOutcome.ok, st, false⟩
      else
        ⟨PyOutcome.ok, { st with tables := st.tables ++ [table_name] }, false⟩

/-- The bootstrap sequence of `__main__` (data_producer.py lines 208-210)
on a responsive store (no injected I/O failures): `create_database`
followed by `create_table`, in the program's configuration (handler
installed). -/
def bootstrap (dbname table_name : String) (st : SchemaState) : BootResult :=
  let r1 := create_database true false dbname st
  let r2 := create_table true none table_name r1.st
  ⟨match r1.result, r2.result with
    | PyOutcome.ok, PyOutcome.ok => PyOutcome.ok
    | PyOutcome.exn n, _ => PyOutcome.exn n
    | _, PyOutcome.exn n => PyOutcome.exn n,
   r2.st, r1.errorLogged || r2.errorLogged⟩

/-- An emitted observation before persistence: the `(signal_type, value)`
pair passed to `insert_data` by `generate_data`. -/
structure Sample where
  signal_type : String
  value : ℚ
deriving DecidableEq

/-- One step of the generation loop as observable behavior: sleeping for a
number of seconds (`time.sleep`) or emitting a sample (an `insert_data`
call). -/
inductive Event where
  | sleep (seconds : ℚ)
  | emit (s : Sample)
deriving DecidableEq

/-- CPython's `random.random()` on a raw 53-bit draw `k`: a multiple of
2⁻⁵³ in `[0, 1)`. -/
def pyRandom (k : ℕ) : ℚ :=
  ((k % 2 ^ 53 : ℕ) : ℚ) / ((2 ^ 53 : ℕ) : ℚ)

/-- `random.uniform(a, b) = a + (b - a) * random.random()`. -/
def pyUniform (a b : ℚ) (k : ℕ) : ℚ :=
  a + (b - a) * pyRandom k

/-- `random.randint(a, b)`: an integer drawn from `[a, b]`, modelled by
folding the raw draw into the `b - a + 1` possible values. -/
def pyRandint (a b k : ℕ) : ℕ :=
  a + k % (b - a + 1)

/-- `random.choice([0, 1])`: one of the two list elements, selected by the
raw draw. -/
def pyChoice01 (k : ℕ) : ℚ :=
  if k % 2 = 0 then 0 else 1

/-- Raw random draws consumed by iteration `i` of the generation loop:
`coarseRaw` feeds `random.uniform(1, 5)`, `stateRaw` feeds
`random.choice([0, 1])`, `errRaw` feeds the `random.random() < 0.1` test,
`errCodeRaw` feeds `random.randint(1, 100)`, and `powerRaw i j` feeds
`random.uniform(100.0, 500.0)` for the `j`-th burst sample. -/
structure Rng where
  coarseRaw : ℕ → ℕ
  stateRaw : ℕ → ℕ
  errRaw : ℕ → ℕ
  errCodeRaw : ℕ → ℕ
  powerRaw : ℕ → ℕ → ℕ

/-- The `j`-th power sample of iteration `i`. -/
def powerSample (rng : Rng) (i j : ℕ) : Sample :=
  ⟨"power", pyUniform 100 500 (rng.powerRaw i j)⟩

/-- The power burst of one loop iteration (data_producer.py lines
193-197): `for _ in range(100): insert_data(..., "power", uniform);
time.sleep(0.01)`. -/
def burstTrace (rng : Rng) (i : ℕ) : List Event :=
  (List.range 100).flatMap fun j =>
    [Event.emit (powerSample rng i j), Event.sleep (1 / 100)]

/-- One iteration of the `while True` body of `generate_data`
(data_producer.py lines 182-197): sleep `uniform(1, 5)`, emit one
state_change sample, with probability 0.1 one error sample, then the
100-sample power burst. -/
def iterationTrace (rng : Rng) (i : ℕ) : List Event :=
  Event.sleep (pyUniform 1 5 (rng.coarseRaw i)) ::
  Event.emit ⟨"state_change", pyChoice01 (rng.stateRaw i)⟩ ::
  ((if pyRandom (rng.errRaw i) < 1 / 10 then
      [Event.emit ⟨"error", ((pyRandint 1 100 (rng.errCodeRaw i) : ℕ) : ℚ)⟩]
    else []) ++ burstTrace rng i)

/-- Outcome of one `insert_data` call as seen by the loop, for a given
handler flag and failure point (the loop's behavior depends only on this
projection of `insert_data`). -/
def insertOutcome (roe : Bool) (fail : Option FailPoint) : PyOutcome :=
  (insert_data roe fail [] 0 "" 0).result

/-- How the walk over one iteration's events ended: all events processed,
a `KeyboardInterrupt` delivered during a sleep (a suspension point), or an
exception raised out of an `insert_data` call (the loop's `except` clause
catches only `KeyboardInterrupt`, so anything else propagates). -/
inductive StepEnd where
  | finished
  | interrupted
  | raised (name : String)
deriving DecidableEq

/-- State after walking (part of) one iteration's events: events that
actually happened, the updated global sleep and insert counters, and how
the walk ended. -/
structure EvRun where
  evs : List Event
  sc : ℕ
  ic : ℕ
  stop : StepEnd
deriving DecidableEq

/-- Walk the events of one loop iteration.  `cancelAt = some k` delivers a
`KeyboardInterrupt` during the `k`-th sleep of the whole run (sleeps are
the suspension points, cf. `time.sleep` in the loop); `insFail n` is the
failure point of the `n`-th `insert_data` call of the run. -/
def runEvents (cancelAt : Option ℕ) (roe : Bool) (insFail : ℕ → Option FailPoint) :
    List Event → ℕ → ℕ → EvRun
  | [], sc, ic => ⟨[], sc, ic, StepEnd.finished⟩
  | Event.sleep d :: rest, sc, ic =>
      if cancelAt = some sc then
        ⟨[], sc, ic, StepEnd.interrupted⟩
      else
        let r := runEvents cancelAt roe insFail rest (sc + 1) ic
        ⟨Event.sleep d :: r.evs, r.sc, r.ic, r.stop⟩
  | Event.emit s :: rest, sc, ic =>
      match insertOutcome roe (insFail ic) with
      | PyOutcome.ok =>
          let r := runEvents cancelAt roe insFail rest sc (ic + 1)
          ⟨Event.emit s :: r.evs, r.sc, r.ic, r.stop⟩
      | PyOutcome.exn n => ⟨[Event.emit s], sc, ic + 1, StepEnd.raised n⟩

/-- Terminal state of a bounded run of `generate_data`: ran out of fuel
while still looping, stopped normally after catching `KeyboardInterrupt`
(`logging.warning("Data generation stopped."); break`), or crashed because
an exception other than `KeyboardInterrupt` escaped the loop. -/
inductive RunStatus where
  | fuelOut
  | stopped
  | crashed (name : String)
deriving DecidableEq

/-- Result of a bounded run of `generate_data`: the events that happened,
whether the stop warning was logged, and the terminal status. -/
structure RunResult where
  events : List Event
  warned : Bool
  status : RunStatus
deriving DecidableEq

/-- Embedding of the `while True` loop of `generate_data`
(data_producer.py lines 180-200), bounded by `fuel` iterations.  The
`try`/`except KeyboardInterrupt` around the body converts an interrupt
observed at any suspension point of the iteration into the warning log and
`break`; any other exception propagates and ends the process. -/
def runGenAux (rng : Rng) (cancelAt : Option ℕ) (roe : Bool)
    (insFail : ℕ → Option FailPoint) : ℕ → ℕ → ℕ → ℕ → RunResult
  | 0, _, _, _ => ⟨[], false, RunStatus.fuelOut⟩
  | fuel + 1, i, sc, ic =>
      let r := runEvents cancelAt roe insFail (iterationTrace rng i) sc ic
      match r.stop with
      | StepEnd.finished =>
          let rest := runGenAux rng cancelAt roe insFail fuel (i + 1) r.sc r.ic
          ⟨r.evs ++ rest.events, rest.warned, rest.status⟩
      | StepEnd.interrupted => ⟨r.evs, true, RunStatus.stopped⟩
      | StepEnd.raised n => ⟨r.evs, false, RunStatus.crashed n⟩

/-- Run `generate_data` from the start for at most `fuel` iterations. -/
def runGen (rng : Rng) (cancelAt : Option ℕ) (roe : Bool)
    (insFail : ℕ → Option FailPoint) (fuel : ℕ) : RunResult :=
  runGenAux rng cancelAt roe insFail fuel 0 0 0

/-- Failure oracle of a fully responsive store: no insert fails. -/
def noInsertFail : ℕ → Option FailPoint := fun _ => none

/-- Recognize a sleep event. -/
def isSleep : Event → Bool
  | Event.sleep _ => true
  | Event.emit _ => false

/-- Recognize an emit event. -/
def isEmit : Event → Bool
  | Event.sleep _ => false
  | Event.emit _ => true

/-- Recognize the emission of a power sample. -/
def isPowerEmit : Event → Bool
  | Event.emit s => s.signal_type == "power"
  | Event.sleep _ => false

/-- Number of sleeps (suspension points) in an event list. -/
def sleepCount (es : List Event) : ℕ := es.countP isSleep

/-- Number of emitted samples in an event list. -/
def emitCount (es : List Event) : ℕ := es.countP isEmit

/-- Number of suspension points in `fuel` iterations starting at
iteration `i`. -/
def totalSleeps (rng : Rng) : ℕ → ℕ → ℕ
  | 0, _ => 0
  | fuel + 1, i => sleepCount (iterationTrace rng i) + totalSleeps rng fuel (i + 1)

/-- The full event trace of `fuel` uninterrupted iterations starting at
iteration `i`. -/
def fullEvents (rng : Rng) : ℕ → ℕ → List Event
  | 0, _ => []
  | fuel + 1, i => iterationTrace rng i ++ fullEvents rng fuel (i + 1)

/-- A fixed all-zero random source, used to evaluate the model on concrete
inputs. -/
def rng0 : Rng :=
  ⟨fun _ => 0, fun _ => 0, fun _ => 0, fun _ => 0, fun _ _ => 0⟩

/-- The environment visible to `get_db_configuration`: whether a `.env`
file exists at the working directory, the process environment, and the
variables defined by the `.env` file. -/
structure PyEnv where
  dotenvExists : Bool
  procEnv : String → Option String
  fileEnv : String → Option String

/-- The validated configuration record returned by
`get_db_configuration` (data_producer.py lines 45-81), with `port`
already converted to an integer. -/
structure DBConfig where
  dbname : String
  user : String
  password : String
  host : String
  port : ℤ
  table_name : String
deriving DecidableEq

/-- Exceptions raised by `get_db_configuration`. -/
inductive ConfigError where
  | fileNotFound (msg : String)
  | valueError (msg : String)
deriving DecidableEq

/-- `os.getenv` after `load_dotenv(dotenv_path=".env")`: `load_dotenv`
does not override variables already present in the process environment,
so a process-environment entry wins and the `.env` file only fills in the
rest. -/
def envAfterLoad (e : PyEnv) (v : String) : Option String :=
  match e.procEnv v with
  | some s => some s
  | none => e.fileEnv v

/-- Python truthiness test of the loop `if not value:` in
`get_db_configuration`: the variable is absent (`None`) or the empty
string. -/
def missingOrEmpty (env : String → Option String) (v : String) : Bool :=
  match env v with
  | none => true
  | some s => s.isEmpty

/-- The string value of a present variable (default irrelevant, used only
when the variable is present). -/
def envVal (env : String → Option String) (v : String) : String :=
  (env v).getD ""

/-- One step of the validation loop of `get_db_configuration`: return the
variable's value, or raise
`ValueError("The <var> environment variable is missing or empty")` when it
is absent or empty. -/
def requireVar (env : String → Option String) (v : String) :
    Except ConfigError String :=
  match env v with
  | none =>
      Except.error (ConfigError.valueError
        ("The " ++ v ++ " environment variable is missing or empty"))
  | some s =>
      if s.isEmpty then
        Except.error (ConfigError.valueError
          ("The " ++ v ++ " environment variable is missing or empty"))
      else Except.ok s

/-- Raise-on-error propagation of the sequential validation: the first
error aborts the rest, mirroring the uncaught `raise` in the loop. -/
def bindE (x : Except ConfigError String)
    (f : String → Except ConfigError DBConfig) : Except ConfigError DBConfig :=
  match x with
  | Except.error err => Except.error err
  | Except.ok v => f v

/-- The `.env` variables read by `get_db_configuration`, in the iteration
order of `env_to_config_map` (data_producer.py lines 55-62). -/
def requiredEnvVars : List String :=
  ["DB_NAME", "DB_USER", "DB_PASSWORD", "DB_HOST", "DB_PORT", "DB_TABLE_NAME"]

/-- Strip leading and trailing whitespace, as `int(str)` does before
parsing. -/
def stripWs (cs : List Char) : List Char :=
  ((cs.dropWhile Char.isWhitespace).reverse.dropWhile Char.isWhitespace).reverse

/-- After the leading digit: digits, with single underscores allowed only
between digits (Python integer-literal grouping). -/
def digitsCore : List Char → Bool
  | [] => true
  | '_' :: rest =>
      match rest with
      | [] => false
      | c :: rest2 => c.isDigit && digitsCore rest2
  | c :: rest => c.isDigit && digitsCore rest

/-- A nonempty digit sequence with legal underscore grouping. -/
def validIntBody : List Char → Bool
  | [] => false
  | c :: rest => c.isDigit && digitsCore rest

/-- Numeric value of a digit sequence, ignoring grouping underscores. -/
def natOfDigits (cs : List Char) : ℕ :=
  cs.foldl (fun acc c => if c = '_' then acc else 10 * acc + (c.toNat - '0'.toNat)) 0

/-- Python's `int(str)` conversion: optional surrounding whitespace,
optional sign, then a digit sequence; `none` models the `ValueError` that
`int` raises on anything else. -/
def pyIntParse (s : String) : Option ℤ :=
  match stripWs s.toList with
  | '+' :: rest => if validIntBody rest then some ((natOfDigits rest : ℕ) : ℤ) else none
  | '-' :: rest => if validIntBody rest then some (-((natOfDigits rest : ℕ) : ℤ)) else none
  | cs => if validIntBody cs then some ((natOfDigits cs : ℕ) : ℤ) else none

/-- Embedding of `get_db_configuration` (data_producer.py lines 45-81):
raise `FileNotFoundError` when no `.env` file exists, load it, validate
the six variables in order raising `ValueError` at the first missing or
empty one, then convert `port` with `int`, raising
`ValueError("DB_PORT must be a valid integer")` when the conversion
fails. -/
def get_db_configuration (e : PyEnv) : Except ConfigError DBConfig :=
  if e.dotenvExists then
    bindE (requireVar (envAfterLoad e) "DB_NAME") fun dbname =>
    bindE (requireVar (envAfterLoad e) "DB_USER") fun user =>
    bindE (requireVar (envAfterLoad e) "DB_PASSWORD") fun password =>
    bindE (requireVar (envAfterLoad e) "DB_HOST") fun host =>
    bindE (requireVar (envAfterLoad e) "DB_PORT") fun portStr =>
    bindE (requireVar (envAfterLoad e) "DB_TABLE_NAME") fun table_name =>
      match pyIntParse portStr with
      | none => Except.error (ConfigError.valueError "DB_PORT must be a valid integer")
      | some p => Except.ok ⟨dbname, user, password, host, p, table_name⟩
  else
    Except.error (ConfigError.fileNotFound "No .env file found at the path: .env")

/-- Outcome of the process entry point: the uncaught configuration error,
if any, and the generation events that happened. -/
structure MainOutcome where
  fatal : Option ConfigError
  generated : List Event
deriving DecidableEq

/-- Embedding of the `__main__` block (data_producer.py lines 203-212):
`setup_logging()` installs `RaiseOnErrorHandler` (hence generation runs
with the handler installed), then `get_db_configuration()` — whose
exceptions nothing catches, aborting the process before any bootstrap or
generation — then bootstrap and `generate_data`.  Store I/O failures are
not injected here; the bounded `fuel` stands for the externally
interrupted unbounded loop. -/
def mainRun (e : PyEnv) (rng : Rng) (fuel : ℕ) : MainOutcome :=
  match get_db_configuration e with
  | Except.error err => ⟨some err, []⟩
  | Except.ok _ => ⟨none, (runGen rng none true noInsertFail fuel).events⟩

/-- A process environment holding all six variables with valid values. -/
def envOkFun : String → Option String := fun v =>
  if v = "DB_NAME" then some "sensors"
  else if v = "DB_USER" then some "alice"
  else if v = "DB_PASSWORD" then some "pw"
  else if v = "DB_HOST" then some "localhost"
  else if v = "DB_PORT" then some "5432"
  else if v = "DB_TABLE_NAME" then some "samples"
  else none

/-- A fully configured environment with a `.env` file present. -/
def envOkPy : PyEnv := ⟨true, envOkFun, fun _ => none⟩

/-- Like `envOkPy` but with `DB_USER` removed. -/
def envMissingUser : PyEnv :=
  ⟨true, fun v => if v = "DB_USER" then none else envOkFun v, fun _ => none⟩

/-- A fully set process environment but no `.env` file. -/
def envNoFile : PyEnv := ⟨false, envOkFun, fun _ => none⟩

/-- The claimed per-signal value domains (spec §3/§8): state_change values
in {0, 1}, error values integers in [1, 100], power values in
[100.0, 500.0]. -/
def sampleDomainOk (s : Sample) : Prop :=
  (s.signal_type = "state_change" → s.value = 0 ∨ s.value = 1) ∧
  (s.signal_type = "error" → ∃ n : ℕ, 1 ≤ n ∧ n ≤ 100 ∧ s.value = (n : ℚ)) ∧
  (s.signal_type = "power" → 100 ≤ s.value ∧ s.value ≤ 500)

/-- Number of `putconn` calls recorded in a pool-event list. -/
def releaseCount (evs : List PoolEvent) : ℕ :=
  evs.count PoolEvent.putconnOpen + evs.count PoolEvent.putconnClosed

/-- Decidable equality of configuration outcomes, for evaluating the model
on concrete environments. -/
instance : DecidableEq (Except ConfigError DBConfig) := fun a b =>
  match a, b with
  | Except.error x, Except.error y =>
      if h : x = y then isTrue (by rw [h]) else isFalse fun hc => h (by cases hc; rfl)
  | Except.ok x, Except.ok y =>
      if h : x = y then isTrue (by rw [h]) else isFalse fun hc => h (by cases hc; rfl)
  | Except.error _, Except.ok _ => isFalse fun hc => Except.noConfusion hc
  | Except.ok _, Except.error _ => isFalse fun hc => Except.noConfusion hc

theorem pyRandom_nonneg (k : ℕ) : 0 ≤ pyRandom k := by
  unfold pyRandom
  positivity

theorem pyRandom_lt_one (k : ℕ) : pyRandom k < 1 := by
  unfold pyRandom
  rw [div_lt_one (by positivity)]
  exact_mod_cast Nat.mod_lt _ (by norm_num)

theorem pyUniform_bounds {a b : ℚ} (h : a ≤ b) (k : ℕ) :
    a ≤ pyUniform a b k ∧ pyUniform a b k ≤ b := by
  have h0 := pyRandom_nonneg k
  have h1 := (pyRandom_lt_one k).le
  unfold pyUniform
  constructor
  · nlinarith
  · nlinarith

theorem insertOutcome_none (roe : Bool) : insertOutcome roe none = PyOutcome.ok := rfl

theorem insertOutcome_false_ok (f : Option FailPoint) (hf : f ≠ some FailPoint.getconn) :
    insertOutcome false f = PyOutcome.ok := by
  rcases f with _ | fp
  · rfl
  · cases fp with
    | getconn => exact absurd rfl hf
    | execute => rfl
    | commit => rfl

theorem create_database_noFail (roe : Bool) (db : String) (st : SchemaState) :
    (create_database roe false db st).result = PyOutcome.ok ∧
    (create_database roe false db st).errorLogged = false ∧
    db ∈ (create_database roe false db st).st.databases ∧
    (create_database roe false db st).st.tables = st.tables := by
  unfold create_database
  by_cases h : db ∈ st.databases <;> simp [h]

theorem create_database_mem (roe : Bool) (db : String) (st : SchemaState)
    (h : db ∈ st.databases) :
    create_database roe false db st = ⟨PyOutcome.ok, st, false⟩ := by
  unfold create_database
  simp [h]

theorem create_table_noFail (roe : Bool) (tn : String) (st : SchemaState) :
    (create_table roe none tn st).result = PyOutcome.ok ∧
    (create_table roe none tn st).errorLogged = false ∧
    tn ∈ (create_table roe none tn st).st.tables ∧
    (create_table roe none tn st).st.databases = st.databases := by
  unfold create_table
  by_cases h : tn ∈ st.tables <;> simp [h]

theorem create_table_mem (roe : Bool) (tn : String) (st : SchemaState)
    (h : tn ∈ st.tables) :
    create_table roe none tn st = ⟨PyOutcome.ok, st, false⟩ := by
  unfold create_table
  simp [h]

/-- C10: if no file named `.env` exists at the current working directory,
`get_db_configuration` raises `FileNotFoundError` before reading any
environment variable, so configuration fails no matter which variables the
process environment holds. -/
theorem no_dotenv_file_aborts_startup :
    ∀ (procEnv fileEnv : String → Option String),
      get_db_configuration ⟨false, procEnv, fileEnv⟩ =
        Except.error (ConfigError.fileNotFound "No .env file found at the path: .env") := by
  intro procEnv fileEnv
  rfl

/-- C5: a successful `insert_data` call appends exactly one committed row
carrying the sample's signal type, value and the write-time timestamp
before it returns, and a failed call appends none. -/
theorem insert_success_appends_one_row :
    ∀ (roe : Bool) (rows : List Row) (now : ℕ) (sig : String) (v : ℚ),
      (insert_data roe none rows now sig v).result = PyOutcome.ok ∧
      (insert_data roe none rows now sig v).rows = rows ++ [⟨sig, v, now⟩] ∧
      ((insert_data roe none rows now sig v).rows).length = rows.length + 1 ∧
      ∀ fp : FailPoint, (insert_data roe (some fp) rows now sig v).rows = rows := by
  intro roe rows now sig v
  refine ⟨rfl, rfl, by simp [insert_data], ?_⟩
  intro fp
  cases fp <;> rfl

/-- C4: the schema bootstrap is idempotent — a second run against the
state left by the first returns successfully, logs no error, and changes
no schema object. -/
theorem bootstrap_idempotent :
    ∀ (db tn : String) (st : SchemaState),
      (bootstrap db tn st).result = PyOutcome.ok ∧
      (bootstrap db tn (bootstrap db tn st).st).result = PyOutcome.ok ∧
      (bootstrap db tn (bootstrap db tn st).st).st = (bootstrap db tn st).st ∧
      (bootstrap db tn (bootstrap db tn st).st).errorLogged = false := by
  intro db tn st
  obtain ⟨hd1, hdl1, hdm1, hdt1⟩ := create_database_noFail true db st
  obtain ⟨ht1, htl1, htm1, htd1⟩ :=
    create_table_noFail true tn (create_database true false db st).st
  have hst : (bootstrap db tn st).st =
      (create_table true none tn (create_database true false db st).st).st := by
    simp [bootstrap]
  have hdm2 : db ∈ (bootstrap db tn st).st.databases := by
    rw [hst, htd1]
    exact hdm1
  have htm2 : tn ∈ (bootstrap db tn st).st.tables := by
    rw [hst]
    exact htm1
  have key : ∀ st1 : SchemaState, db ∈ st1.databases → tn ∈ st1.tables →
      bootstrap db tn st1 = ⟨PyOutcome.ok, st1, false⟩ := by
    intro st1 hdb htn
    simp [bootstrap, create_database_mem true db st1 hdb, create_table_mem true tn st1 htn]
  refine ⟨?_, ?_, ?_, ?_⟩
  · simp only [bootstrap]
    rw [hd1, ht1]
  · rw [key _ hdm2 htm2]
  · rw [key _ hdm2 htm2]
  · rw [key _ hdm2 htm2]

theorem sleepCount_cons_sleep (d : ℚ) (rest : List Event) :
    sleepCount (Event.sleep d :: rest) = sleepCount rest + 1 := by
  simp [sleepCount, List.countP_cons, isSleep]

theorem sleepCount_cons_emit (s : Sample) (rest : List Event) :
    sleepCount (Event.emit s :: rest) = sleepCount rest := by
  simp [sleepCount, List.countP_cons, isSleep]

theorem runEvents_none_ok (roe : Bool) (insFail : ℕ → Option FailPoint)
    (hok : ∀ n, insertOutcome roe (insFail n) = PyOutcome.ok) :
    ∀ (es : List Event) (sc ic : ℕ),
      runEvents none roe insFail es sc ic =
        ⟨es, sc + sleepCount es, ic + emitCount es, StepEnd.finished⟩ := by
  intro es
  induction es with
  | nil => intro sc ic; simp [runEvents, sleepCount, emitCount]
  | cons e rest ih =>
    intro sc ic
    cases e with
    | sleep d =>
      have he : emitCount (Event.sleep d :: rest) = emitCount rest := by
        simp [emitCount, List.countP_cons, isEmit]
      simp only [runEvents]
      rw [if_neg (by simp), ih (sc + 1) ic, sleepCount_cons_sleep, he]
      have hs : sc + (sleepCount rest + 1) = (sc + 1) + sleepCount rest := by omega
      rw [hs]
    | emit s =>
      have he : emitCount (Event.emit s :: rest) = emitCount rest + 1 := by
        simp [emitCount, List.countP_cons, isEmit]
      simp only [runEvents, hok ic]
      rw [ih sc (ic + 1), sleepCount_cons_emit, he]
      have hi : ic + (emitCount rest + 1) = (ic + 1) + emitCount rest := by omega
      rw [hi]

theorem runEvents_miss (k : ℕ) (roe : Bool) (insFail : ℕ → Option FailPoint)
    (hok : ∀ n, insertOutcome roe (insFail n) = PyOutcome.ok) :
    ∀ (es : List Event) (sc ic : ℕ), (k < sc ∨ sc + sleepCount es ≤ k) →
      runEvents (some k) roe insFail es sc ic = runEvents none roe insFail es sc ic := by
  intro es
  induction es with
  | nil => intro sc ic _; rfl
  | cons e rest ih =>
    intro sc ic h
    cases e with
    | sleep d =>
      have hne : k ≠ sc := by
        rcases h with h | h
        · omega
        · rw [sleepCount_cons_sleep] at h; omega
      have h' : k < sc + 1 ∨ (sc + 1) + sleepCount rest ≤ k := by
        rcases h with h | h
        · left; omega
        · right; rw [sleepCount_cons_sleep] at h; omega
      simp only [runEvents]
      rw [if_neg (by simpa using hne), if_neg (by simp)]
      rw [ih (sc + 1) ic h']
    | emit s =>
      have h' : k < sc ∨ sc + sleepCount rest ≤ k := by
        rcases h with h | h
        · left; exact h
        · right; rw [sleepCount_cons_emit] at h; exact h
      simp only [runEvents, hok ic]
      rw [ih sc (ic + 1) h']

theorem runEvents_hit (k : ℕ) (roe : Bool) (insFail : ℕ → Option FailPoint)
    (hok : ∀ n, insertOutcome roe (insFail n) = PyOutcome.ok) :
    ∀ (es : List Event) (sc ic : ℕ), sc ≤ k → k < sc + sleepCount es →
      (runEvents (some k) roe insFail es sc ic).stop = StepEnd.interrupted ∧
      ∃ t, (runEvents (some k) roe insFail es sc ic).evs ++ t = es := by
  intro es
  induction es with
  | nil =>
    intro sc ic h1 h2
    simp [sleepCount, List.countP_nil] at h2
    omega
  | cons e rest ih =>
    intro sc ic h1 h2
    cases e with
    | sleep d =>
      by_cases hk : k = sc
      · subst hk
        refine ⟨?_, Event.sleep d :: rest, ?_⟩ <;> simp [runEvents]
      · have h1' : sc + 1 ≤ k := by omega
        have h2' : k < (sc + 1) + sleepCount rest := by
          rw [sleepCount_cons_sleep] at h2; omega
        obtain ⟨hstop, t, ht⟩ := ih (sc + 1) ic h1' h2'
        simp only [runEvents]
        rw [if_neg (by simpa using hk)]
        exact ⟨hstop, t, by simpa using ht⟩
    | emit s =>
      have h2' : k < sc + sleepCount rest := by
        rw [sleepCount_cons_emit] at h2; exact h2
      obtain ⟨hstop, t, ht⟩ := ih sc (ic + 1) h1 h2'
      simp only [runEvents, hok ic]
      exact ⟨hstop, t, by simpa using ht⟩

theorem runGenAux_none (rng : Rng) (roe : Bool) (insFail : ℕ → Option FailPoint)
    (hok : ∀ n, insertOutcome roe (insFail n) = PyOutcome.ok) :
    ∀ (fuel i sc ic : ℕ),
      runGenAux rng none roe insFail fuel i sc ic =
        ⟨fullEvents rng fuel i, false, RunStatus.fuelOut⟩ := by
  intro fuel
  induction fuel with
  | zero => intro i sc ic; rfl
  | succ fuel ih =>
    intro i sc ic
    simp only [runGenAux]
    rw [runEvents_none_ok roe insFail hok (iterationTrace rng i) sc ic]
    simp only []
    rw [ih (i + 1)]
    simp [fullEvents]

theorem runGenAux_cancel (rng : Rng) (k : ℕ) (roe : Bool) :
    ∀ (fuel i sc ic : ℕ), sc ≤ k → k < sc + totalSleeps rng fuel i →
      (runGenAux rng (some k) roe noInsertFail fuel i sc ic).status = RunStatus.stopped ∧
      (runGenAux rng (some k) roe noInsertFail fuel i sc ic).warned = true ∧
      ∃ t, (runGenAux rng (some k) roe noInsertFail fuel i sc ic).events ++ t =
        fullEvents rng fuel i := by
  have hok : ∀ n, insertOutcome roe (noInsertFail n) = PyOutcome.ok :=
    fun _ => insertOutcome_none roe
  intro fuel
  induction fuel with
  | zero =>
    intro i sc ic h1 h2
    simp [totalSleeps] at h2
    omega
  | succ fuel ih =>
    intro i sc ic h1 h2
    by_cases hcase : k < sc + sleepCount (iterationTrace rng i)
    · obtain ⟨hstop, t, ht⟩ :=
        runEvents_hit k roe noInsertFail hok (iterationTrace rng i) sc ic h1 hcase
      simp only [runGenAux]
      rw [hstop]
      refine ⟨rfl, rfl, t ++ fullEvents rng fuel (i + 1), ?_⟩
      simp only [fullEvents, ← List.append_assoc, ht]
    · push_neg at hcase
      simp only [runGenAux]
      rw [runEvents_miss k roe noInsertFail hok (iterationTrace rng i) sc ic (Or.inr hcase)]
      rw [runEvents_none_ok roe noInsertFail hok (iterationTrace rng i) sc ic]
      simp only []
      have h2' : k < (sc + sleepCount (iterationTrace rng i)) + totalSleeps rng fuel (i + 1) := by
        simp only [totalSleeps] at h2
        omega
      obtain ⟨hs, hw, t, ht⟩ :=
        ih (i + 1) (sc + sleepCount (iterationTrace rng i)) (ic + emitCount (iterationTrace rng i))
          hcase h2'
      refine ⟨hs, hw, t, ?_⟩
      simp only [fullEvents, List.append_assoc, ht]

/-- C8: whenever a cancellation request is observed at a suspension point
of the run — any sleep, including each of the 100 burst sleeps — the
Scheduler logs the warning, returns normally with status `stopped` (not
`crashed`), and its event trace is a prefix of the uncancelled run's
trace: nothing more is emitted after the stop. -/
theorem scheduler_stops_on_cancellation :
    ∀ (rng : Rng) (roe : Bool) (fuel k : ℕ),
      k < totalSleeps rng fuel 0 →
      (runGen rng (some k) roe noInsertFail fuel).status = RunStatus.stopped ∧
      (runGen rng (some k) roe noInsertFail fuel).warned = true ∧
      ∃ t, (runGen rng (some k) roe noInsertFail fuel).events ++ t =
        (runGen rng none roe noInsertFail fuel).events := by
  intro rng roe fuel k hk
  have hok : ∀ n, insertOutcome roe (noInsertFail n) = PyOutcome.ok :=
    fun _ => insertOutcome_none roe
  obtain ⟨h1, h2, t, ht⟩ :=
    runGenAux_cancel rng k roe fuel 0 0 0 (Nat.zero_le k) (by simpa using hk)
  refine ⟨h1, h2, t, ?_⟩
  have hnone : (runGen rng none roe noInsertFail fuel).events = fullEvents rng fuel 0 := by
    simp only [runGen]
    rw [runGenAux_none rng roe noInsertFail hok fuel 0 0 0]
  rw [hnone]
  exact ht

theorem totalSleeps_one_pos (rng : Rng) : 0 < totalSleeps rng 1 0 := by
  have h : totalSleeps rng 1 0 = sleepCount (iterationTrace rng 0) := rfl
  rw [h, iterationTrace, sleepCount_cons_sleep]
  simp

theorem scheduler_stops_on_cancellation_witness :
    0 < totalSleeps rng0 1 0 ∧
    (runGen rng0 (some 0) false noInsertFail 1).status = RunStatus.stopped ∧
    (runGen rng0 (some 0) false noInsertFail 1).warned = true := by
  have h := scheduler_stops_on_cancellation rng0 false 1 0 (totalSleeps_one_pos rng0)
  exact ⟨totalSleeps_one_pos rng0, h.1, h.2.1⟩

/-- C1 counterexample: in the program as run (`setup_logging` installs
`RaiseOnErrorHandler` before generation starts), a write failure makes
`insert_data` raise `RuntimeError` instead of returning normally, and the
generation loop — whose `except` clause catches only `KeyboardInterrupt` —
crashes instead of continuing. -/
theorem insert_failure_propagates_with_handler :
    (insert_data true (some FailPoint.execute) [] 0 "state_change" 0).result =
      PyOutcome.exn "RuntimeError" ∧
    (insert_data true (some FailPoint.execute) [] 0 "state_change" 0).result ≠
      PyOutcome.ok ∧
    (runGen rng0 none true (fun _ => some FailPoint.execute) 1).status =
      RunStatus.crashed "RuntimeError" := by
  exact ⟨by decide, by decide, by decide⟩

/-- C1 amended: a write failure occurring after the connection is acquired
is caught and logged inside `insert_data`, which returns normally, and the
generation loop then continues with the next scheduled sample — but only
when `RaiseOnErrorHandler` is not installed; additionally a failure of
`getconn` itself escapes as `UnboundLocalError` from the `finally` block
in either configuration. -/
theorem insert_failure_isolated_when_handler_absent :
    (∀ (fp : FailPoint) (rows : List Row) (now : ℕ) (sig : String) (v : ℚ),
      fp ≠ FailPoint.getconn →
        (insert_data false (some fp) rows now sig v).result = PyOutcome.ok ∧
        (insert_data false (some fp) rows now sig v).errorLogged = true) ∧
    (∀ (rng : Rng) (fuel : ℕ) (insFail : ℕ → Option FailPoint),
      (∀ n, insFail n ≠ some FailPoint.getconn) →
        runGen rng none false insFail fuel = runGen rng none false noInsertFail fuel ∧
        (runGen rng none false insFail fuel).status = RunStatus.fuelOut) := by
  constructor
  · intro fp rows now sig v h
    cases fp with
    | getconn => exact absurd rfl h
    | execute => exact ⟨rfl, rfl⟩
    | commit => exact ⟨rfl, rfl⟩
  · intro rng fuel insFail h
    have hok : ∀ n, insertOutcome false (insFail n) = PyOutcome.ok :=
      fun n => insertOutcome_false_ok _ (h n)
    have hok0 : ∀ n, insertOutcome false (noInsertFail n) = PyOutcome.ok :=
      fun _ => insertOutcome_none false
    constructor
    · simp only [runGen]
      rw [runGenAux_none rng false insFail hok, runGenAux_none rng false noInsertFail hok0]
    · simp only [runGen]
      rw [runGenAux_none rng false insFail hok]

theorem insert_failure_isolated_when_handler_absent_witness :
    (insert_data false (some FailPoint.execute) [] 0 "state_change" 0).result =
      PyOutcome.ok ∧
    runGen rng0 none false (fun _ => some FailPoint.execute) 1 =
      runGen rng0 none false noInsertFail 1 := by
  refine ⟨(insert_failure_isolated_when_handler_absent.1 FailPoint.execute [] 0
      "state_change" 0 (by decide)).1, ?_⟩
  exact (insert_failure_isolated_when_handler_absent.2 rng0 1
      (fun _ => some FailPoint.execute)
      (fun n => by intro hc; exact FailPoint.noConfusion (Option.some.inj hc))).1

/-- C2 counterexample: on a successful `insert_data` call the code runs
`conn.close()` before the `finally` block's `putconn`, so the connection
handed back on the normal path is already closed — contradicting "not
closed on a normal (successful) release". -/
theorem insert_success_closes_before_release :
    (insert_data true none [] 0 "state_change" 1).poolEvents =
      [PoolEvent.acquire, PoolEvent.putconnClosed] ∧
    PoolEvent.putconnClosed ∈ (insert_data true none [] 0 "state_change" 1).poolEvents ∧
    ¬ PoolEvent.putconnOpen ∈ (insert_data true none [] 0 "state_change" 1).poolEvents := by
  decide

/-- C2 amended: every acquired connection is passed to `putconn` exactly
once, on success and on failure alike, so no connection leaks from the
pool's accounting; but on the successful path the connection has already
been closed by `conn.close()` when it is released (the pool then discards
it instead of reusing it), and only on a post-acquire failure is it
returned open. -/
theorem connection_released_exactly_once :
    ∀ (roe : Bool) (fail : Option FailPoint) (rows : List Row) (now : ℕ)
      (sig : String) (v : ℚ),
      (insert_data roe fail rows now sig v).poolEvents.count PoolEvent.acquire =
        releaseCount (insert_data roe fail rows now sig v).poolEvents ∧
      (insert_data roe fail rows now sig v).poolEvents.count PoolEvent.acquire ≤ 1 ∧
      (fail = none →
        (insert_data roe fail rows now sig v).poolEvents =
          [PoolEvent.acquire, PoolEvent.putconnClosed]) := by
  intro roe fail rows now sig v
  rcases fail with _ | fp
  · exact ⟨rfl, by simp [insert_data], fun _ => rfl⟩
  · cases fp <;> exact ⟨rfl, by simp [insert_data], fun h => by simp at h⟩

theorem connection_released_exactly_once_witness :
    (insert_data true none [] 0 "power" 250).poolEvents =
      [PoolEvent.acquire, PoolEvent.putconnClosed] ∧
    (insert_data true none [] 0 "power" 250).poolEvents.count PoolEvent.acquire =
      releaseCount (insert_data true none [] 0 "power" 250).poolEvents := by
  exact ⟨(connection_released_exactly_once true none [] 0 "power" 250).2.2 rfl,
    (connection_released_exactly_once true none [] 0 "power" 250).1⟩

/-- C3 counterexample: with `RaiseOnErrorHandler` installed (as `__main__`
arranges before calling the bootstrap), a failure during `create_database`
or `create_table` raises `RuntimeError` out of the function instead of
returning normally. -/
theorem bootstrap_failure_raises_with_handler :
    (create_database true true "sensors" ⟨[], []⟩).result = PyOutcome.exn "RuntimeError" ∧
    (create_database true true "sensors" ⟨[], []⟩).result ≠ PyOutcome.ok ∧
    (create_table true (some FailPoint.execute) "samples" ⟨[], []⟩).result =
      PyOutcome.exn "RuntimeError" := by
  exact ⟨by decide, by decide, by decide⟩

/-- C3 amended: a failure during database or table creation is logged and
the step skipped with the function returning normally — but only when
`RaiseOnErrorHandler` is not installed, and for `create_table` only when
the failure happened after `getconn` (a `getconn` failure leaves `conn`
unbound and the `finally` block raises `UnboundLocalError`); in the
program as run the handler is installed and the error log raises. -/
theorem bootstrap_failures_logged_without_handler :
    ∀ (st : SchemaState) (db tn : String) (fp : FailPoint),
      ((create_database false true db st).result = PyOutcome.ok ∧
       (create_database false true db st).errorLogged = true ∧
       (create_database false true db st).st = st) ∧
      (fp ≠ FailPoint.getconn →
        (create_table false (some fp) tn st).result = PyOutcome.ok ∧
        (create_table false (some fp) tn st).errorLogged = true ∧
        (create_table false (some fp) tn st).st = st) := by
  intro st db tn fp
  refine ⟨⟨rfl, rfl, rfl⟩, ?_⟩
  intro h
  cases fp with
  | getconn => exact absurd rfl h
  | execute => exact ⟨rfl, rfl, rfl⟩
  | commit => exact ⟨rfl, rfl, rfl⟩

theorem bootstrap_failures_logged_without_handler_witness :
    (create_database false true "sensors" ⟨[], []⟩).result = PyOutcome.ok ∧
    (create_table false (some FailPoint.execute) "samples" ⟨[], []⟩).result =
      PyOutcome.ok := by
  refine ⟨(bootstrap_failures_logged_without_handler ⟨[], []⟩ "sensors" "samples"
      FailPoint.execute).1.1, ?_⟩
  exact ((bootstrap_failures_logged_without_handler ⟨[], []⟩ "sensors" "samples"
      FailPoint.execute).2 (by decide)).1

/-- C6: every sample emitted by the generation loop lies in its signal
class's domain — state_change values in {0, 1}, error values integers in
[1, 100], power values in [100, 500]. -/
theorem generated_values_in_domain :
    ∀ (rng : Rng) (i : ℕ) (s : Sample),
      Event.emit s ∈ iterationTrace rng i → sampleDomainOk s := by
  intro rng i s hmem
  simp only [iterationTrace, List.mem_cons, List.mem_append] at hmem
  rcases hmem with h | h | h | h
  · exact absurd h (by simp)
  · obtain rfl : s = ⟨"state_change", pyChoice01 (rng.stateRaw i)⟩ := by
      injection h with h'
    refine ⟨fun _ => ?_,
      fun hty => absurd (show ("state_change" : String) = "error" from hty) (by decide),
      fun hty => absurd (show ("state_change" : String) = "power" from hty) (by decide)⟩
    unfold pyChoice01
    by_cases hp : rng.stateRaw i % 2 = 0
    · left; simp [hp]
    · right; simp [hp]
  · by_cases hc : pyRandom (rng.errRaw i) < 1 / 10
    · rw [if_pos hc] at h
      simp only [List.mem_singleton] at h
      obtain rfl : s = ⟨"error", ((pyRandint 1 100 (rng.errCodeRaw i) : ℕ) : ℚ)⟩ := by
        injection h with h'
      refine ⟨fun hty => absurd (show ("error" : String) = "state_change" from hty) (by decide),
        fun _ => ?_,
        fun hty => absurd (show ("error" : String) = "power" from hty) (by decide)⟩
      refine ⟨pyRandint 1 100 (rng.errCodeRaw i), ?_, ?_, rfl⟩
      · unfold pyRandint; omega
      · unfold pyRandint
        have := Nat.mod_lt (rng.errCodeRaw i) (show 0 < 100 - 1 + 1 by norm_num)
        omega
    · rw [if_neg hc] at h
      simp at h
  · simp only [burstTrace, List.mem_flatMap] at h
    obtain ⟨j, _, hmem2⟩ := h
    simp only [List.mem_cons, List.mem_singleton] at hmem2
    rcases hmem2 with h | h | h
    · obtain rfl : s = powerSample rng i j := by injection h with h'
      refine ⟨fun hty => absurd (show ("power" : String) = "state_change" from hty) (by decide),
        fun hty => absurd (show ("power" : String) = "error" from hty) (by decide),
        fun _ => ?_⟩
      exact pyUniform_bounds (by norm_num) (rng.powerRaw i j)
    · exact absurd h (by simp)
    · exact absurd h (by simp)

theorem generated_values_in_domain_witness :
    Event.emit ⟨"state_change", pyChoice01 0⟩ ∈ iterationTrace rng0 0 ∧
    sampleDomainOk ⟨"state_change", pyChoice01 0⟩ := by
  have hmem : Event.emit ⟨"state_change", pyChoice01 0⟩ ∈ iterationTrace rng0 0 :=
    List.Mem.tail _ (List.Mem.head _)
  exact ⟨hmem, generated_values_in_domain rng0 0 _ hmem⟩

theorem burst_filter_length (rng : Rng) (i : ℕ) :
    ∀ n, (((List.range n).flatMap fun j =>
        [Event.emit (powerSample rng i j), Event.sleep (1 / 100)]).filter
          isPowerEmit).length = n := by
  intro n
  induction n with
  | zero => rfl
  | succ n ih =>
    rw [List.range_succ, List.flatMap_append, List.filter_append, List.length_append, ih]
    have hone : ((([n] : List ℕ).flatMap fun j =>
        [Event.emit (powerSample rng i j), Event.sleep (1 / 100)]).filter
          isPowerEmit).length = 1 := rfl
    rw [hone]

theorem burst_block_length (rng : Rng) (i : ℕ) (n : ℕ) :
    ((List.range n).flatMap fun j =>
      [Event.emit (powerSample rng i j), Event.sleep (1 / 100)]).length = 2 * n := by
  rw [List.length_flatMap]
  have hmap : (List.range n).map
      (List.length ∘ fun j => [Event.emit (powerSample rng i j), Event.sleep (1 / 100)]) =
      List.replicate n 2 := by
    rw [show (List.length ∘ fun j =>
        [Event.emit (powerSample rng i j), Event.sleep (1 / 100)]) =
        Function.const ℕ 2 from rfl]
    rw [List.map_const, List.length_range]
  rw [hmap, List.sum_replicate, smul_eq_mul]
  omega

theorem burst_pairs_at (rng : Rng) (i : ℕ) :
    ∀ n j, j < n →
      ((List.range n).flatMap fun j =>
        [Event.emit (powerSample rng i j), Event.sleep (1 / 100)])[2 * j]? =
          some (Event.emit (powerSample rng i j)) ∧
      ((List.range n).flatMap fun j =>
        [Event.emit (powerSample rng i j), Event.sleep (1 / 100)])[2 * j + 1]? =
          some (Event.sleep (1 / 100)) := by
  intro n
  induction n with
  | zero => intro j hj; omega
  | succ n ih =>
    intro j hj
    rw [List.range_succ, List.flatMap_append]
    have hlen := burst_block_length rng i n
    rcases Nat.lt_or_ge j n with hjn | hjn
    · obtain ⟨ha, hb⟩ := ih j hjn
      constructor
      · rw [List.getElem?_append_left (by omega)]
        exact ha
      · rw [List.getElem?_append_left (by omega)]
        exact hb
    · have hj' : j = n := by omega
      subst hj'
      constructor
      · rw [List.getElem?_append_right (by omega)]
        rw [hlen]
        simp
      · rw [List.getElem?_append_right (by omega)]
        rw [hlen]
        have hidx : 2 * j + 1 - 2 * j = 1 := by omega
        rw [hidx]
        simp

/-- C7: in every loop iteration, after the state_change/error part (which
emits no power sample), the power stream emits a burst of exactly 100
power samples, the `j`-th at position `2j` of the burst, each followed by
the 0.01-second sleep, before the loop returns to the coarse tick. -/
theorem power_burst_exactly_100 :
    ∀ (rng : Rng) (i : ℕ),
      ∃ t, iterationTrace rng i = t ++ burstTrace rng i ∧
        t.filter isPowerEmit = [] ∧
        ((burstTrace rng i).filter isPowerEmit).length = 100 ∧
        ∀ j, j < 100 →
          (burstTrace rng i)[2 * j]? = some (Event.emit (powerSample rng i j)) ∧
          (burstTrace rng i)[2 * j + 1]? = some (Event.sleep (1 / 100)) := by
  intro rng i
  refine ⟨Event.sleep (pyUniform 1 5 (rng.coarseRaw i)) ::
      Event.emit ⟨"state_change", pyChoice01 (rng.stateRaw i)⟩ ::
      (if pyRandom (rng.errRaw i) < 1 / 10 then
        [Event.emit ⟨"error", ((pyRandint 1 100 (rng.errCodeRaw i) : ℕ) : ℚ)⟩]
      else []), ?_, ?_, burst_filter_length rng i 100, burst_pairs_at rng i 100⟩
  · simp [iterationTrace]
  · by_cases hc : pyRandom (rng.errRaw i) < 1 / 10
    · rw [if_pos hc]; rfl
    · rw [if_neg hc]; rfl

theorem power_burst_exactly_100_witness :
    (burstTrace rng0 0)[0]? = some (Event.emit (powerSample rng0 0 0)) ∧
    ((burstTrace rng0 0).filter isPowerEmit).length = 100 := by
  obtain ⟨t, h1, h2, h3, h4⟩ := power_burst_exactly_100 rng0 0
  have h5 := (h4 0 (by decide)).1
  exact ⟨by simpa using h5, h3⟩

theorem requireVar_of_present (env : String → Option String) (v : String)
    (h : missingOrEmpty env v = false) :
    requireVar env v = Except.ok (envVal env v) := by
  unfold requireVar envVal
  cases henv : env v with
  | none =>
    simp only [missingOrEmpty, henv] at h
    exact absurd h (by decide)
  | some s =>
    simp only [missingOrEmpty, henv] at h
    simp [h]

theorem requireVar_of_missing (env : String → Option String) (v : String)
    (h : missingOrEmpty env v = true) :
    requireVar env v = Except.error (ConfigError.valueError
      ("The " ++ v ++ " environment variable is missing or empty")) := by
  unfold requireVar
  cases henv : env v with
  | none => rfl
  | some s =>
    simp only [missingOrEmpty, henv] at h
    simp [h]

/-- C9: `get_db_configuration` requires all six parameters: a missing or
empty variable raises a `ValueError` naming it; with all present, an
unparseable `DB_PORT` raises
`ValueError("DB_PORT must be a valid integer")`; on success the full
record is returned with `port` as the parsed integer; and any
configuration error is fatal — `__main__` aborts before any generation
event happens. -/
theorem config_requires_all_parameters :
    ∀ (e : PyEnv) (rng : Rng) (fuel : ℕ),
      (e.dotenvExists = true →
        (∃ v, v ∈ requiredEnvVars ∧ missingOrEmpty (envAfterLoad e) v = true) →
        ∃ v, v ∈ requiredEnvVars ∧ missingOrEmpty (envAfterLoad e) v = true ∧
          get_db_configuration e = Except.error (ConfigError.valueError
            ("The " ++ v ++ " environment variable is missing or empty"))) ∧
      (e.dotenvExists = true →
        (∀ v, v ∈ requiredEnvVars → missingOrEmpty (envAfterLoad e) v = false) →
        pyIntParse (envVal (envAfterLoad e) "DB_PORT") = none →
        get_db_configuration e = Except.error
          (ConfigError.valueError "DB_PORT must be a valid integer")) ∧
      (e.dotenvExists = true →
        (∀ v, v ∈ requiredEnvVars → missingOrEmpty (envAfterLoad e) v = false) →
        ∀ p : ℤ, pyIntParse (envVal (envAfterLoad e) "DB_PORT") = some p →
          get_db_configuration e = Except.ok
            ⟨envVal (envAfterLoad e) "DB_NAME", envVal (envAfterLoad e) "DB_USER",
             envVal (envAfterLoad e) "DB_PASSWORD", envVal (envAfterLoad e) "DB_HOST",
             p, envVal (envAfterLoad e) "DB_TABLE_NAME"⟩) ∧
      (∀ err, get_db_configuration e = Except.error err →
        mainRun e rng fuel = ⟨some err, []⟩) := by
  intro e rng fuel
  refine ⟨?_, ?_, ?_, ?_⟩
  · intro hdot hex
    by_cases h1 : missingOrEmpty (envAfterLoad e) "DB_NAME" = true
    · refine ⟨"DB_NAME", by decide, h1, ?_⟩
      simp only [get_db_configuration, hdot, if_true,
        requireVar_of_missing _ _ h1, bindE]
    · have h1f := Bool.eq_false_iff.mpr h1
      by_cases h2 : missingOrEmpty (envAfterLoad e) "DB_USER" = true
      · refine ⟨"DB_USER", by decide, h2, ?_⟩
        simp only [get_db_configuration, hdot, if_true,
          requireVar_of_present _ _ h1f, requireVar_of_missing _ _ h2, bindE]
      · have h2f := Bool.eq_false_iff.mpr h2
        by_cases h3 : missingOrEmpty (envAfterLoad e) "DB_PASSWORD" = true
        · refine ⟨"DB_PASSWORD", by decide, h3, ?_⟩
          simp only [get_db_configuration, hdot, if_true,
            requireVar_of_present _ _ h1f, requireVar_of_present _ _ h2f,
            requireVar_of_missing _ _ h3, bindE]
        · have h3f := Bool.eq_false_iff.mpr h3
          by_cases h4 : missingOrEmpty (envAfterLoad e) "DB_HOST" = true
          · refine ⟨"DB_HOST", by decide, h4, ?_⟩
            simp only [get_db_configuration, hdot, if_true,
              requireVar_of_present _ _ h1f, requireVar_of_present _ _ h2f,
              requireVar_of_present _ _ h3f, requireVar_of_missing _ _ h4, bindE]
          · have h4f := Bool.eq_false_iff.mpr h4
            by_cases h5 : missingOrEmpty (envAfterLoad e) "DB_PORT" = true
            · refine ⟨"DB_PORT", by decide, h5, ?_⟩
              simp only [get_db_configuration, hdot, if_true,
                requireVar_of_present _ _ h1f, requireVar_of_present _ _ h2f,
                requireVar_of_present _ _ h3f, requireVar_of_present _ _ h4f,
                requireVar_of_missing _ _ h5, bindE]
            · have h5f := Bool.eq_false_iff.mpr h5
              by_cases h6 : missingOrEmpty (envAfterLoad e) "DB_TABLE_NAME" = true
              · refine ⟨"DB_TABLE_NAME", by decide, h6, ?_⟩
                simp only [get_db_configuration, hdot, if_true,
                  requireVar_of_present _ _ h1f, requireVar_of_present _ _ h2f,
                  requireVar_of_present _ _ h3f, requireVar_of_present _ _ h4f,
                  requireVar_of_present _ _ h5f, requireVar_of_missing _ _ h6, bindE]
              · exfalso
                obtain ⟨v, hv, hbad⟩ := hex
                simp only [requiredEnvVars, List.mem_cons, List.mem_singleton,
                  List.not_mem_nil, or_false] at hv
                rcases hv with rfl | rfl | rfl | rfl | rfl | rfl
                · exact h1 hbad
                · exact h2 hbad
                · exact h3 hbad
                · exact h4 hbad
                · exact h5 hbad
                · exact h6 hbad
  · intro hdot hall hport
    have h1 := hall "DB_NAME" (by decide)
    have h2 := hall "DB_USER" (by decide)
    have h3 := hall "DB_PASSWORD" (by decide)
    have h4 := hall "DB_HOST" (by decide)
    have h5 := hall "DB_PORT" (by decide)
    have h6 := hall "DB_TABLE_NAME" (by decide)
    simp only [get_db_configuration, hdot, if_true,
      requireVar_of_present _ _ h1, requireVar_of_present _ _ h2,
      requireVar_of_present _ _ h3, requireVar_of_present _ _ h4,
      requireVar_of_present _ _ h5, requireVar_of_present _ _ h6, bindE, hport]
  · intro hdot hall p hp
    have h1 := hall "DB_NAME" (by decide)
    have h2 := hall "DB_USER" (by decide)
    have h3 := hall "DB_PASSWORD" (by decide)
    have h4 := hall "DB_HOST" (by decide)
    have h5 := hall "DB_PORT" (by decide)
    have h6 := hall "DB_TABLE_NAME" (by decide)
    simp only [get_db_configuration, hdot, if_true,
      requireVar_of_present _ _ h1, requireVar_of_present _ _ h2,
      requireVar_of_present _ _ h3, requireVar_of_present _ _ h4,
      requireVar_of_present _ _ h5, requireVar_of_present _ _ h6, bindE, hp]
  · intro err herr
    simp [mainRun, herr]

theorem config_requires_all_parameters_witness :
    (∃ v, v ∈ requiredEnvVars ∧ missingOrEmpty (envAfterLoad envMissingUser) v = true ∧
      get_db_configuration envMissingUser = Except.error (ConfigError.valueError
        ("The " ++ v ++ " environment variable is missing or empty"))) ∧
    get_db_configuration envOkPy =
      Except.ok ⟨"sensors", "alice", "pw", "localhost", 5432, "samples"⟩ ∧
    mainRun envNoFile rng0 1 =
      ⟨some (ConfigError.fileNotFound "No .env file found at the path: .env"), []⟩ := by
  refine ⟨?_, ?_, ?_⟩
  · exact (config_requires_all_parameters envMissingUser rng0 1).1 rfl
      ⟨"DB_USER", by decide, by decide⟩
  · have h := (config_requires_all_parameters envOkPy rng0 1).2.2.1 rfl
      (by decide) 5432 (by decide)
    rw [h]
    decide
  · exact (config_requires_all_parameters envNoFile rng0 1).2.2.2 _ rfl

end DataProducer
